import Mathlib

/-!
Shallow embedding of the client-side mediation layer of gnu_woodchuck
(src/src/woodchuck.py and src/src/pywoodchuck.py): fault translation,
the resilient DBus proxy, the per-property TTL cache, the identity
registries, the feedback-subscription reference counting, the
sender-authenticated upcall dispatch, and the high-level PyWoodchuck
wrapper.  Remote DBus calls are modelled by explicit oracles and the
issued calls are recorded so that theorems can count them.
-/

namespace Woodchuck

/-! ## Fault translator (woodchuck.py, `_dbus_exception_to_woodchuck_exception`) -/

/-- The closed error taxonomy of woodchuck.py: the subclasses of `Error`
declared at lines 126-150 of the source. -/
inductive WoodchuckError
  | genericError
  | noSuchObject
  | objectExistsError
  | notImplementedError
  | internalError
  | invalidArgsError
  | unknownError
  | woodchuckUnavailableError
deriving DecidableEq

/-- Outcome of running the fault translator on a DBus fault: either a typed
local error is raised (with its message), or the original fault is re-raised
unchanged (`reraised`). -/
inductive TranslateResult
  | raised (e : WoodchuckError) (msg : String)
  | reraised
deriving DecidableEq

/-- `_dbus_exception_to_woodchuck_exception` from woodchuck.py.  The input is
the fault name (the empty string when the exception has no
`get_dbus_name`, mirroring the `AttributeError` fallback) and the fault
message. -/
def dbusExceptionToWoodchuckException (dbusName msg : String) : TranslateResult :=
  if dbusName = "org.woodchuck.GenericError" then
    TranslateResult.raised WoodchuckError.genericError msg
  else if dbusName = "org.woodchuck.ObjectExists" then
    TranslateResult.raised WoodchuckError.objectExistsError msg
  else if dbusName = "org.woodchuck.MethodNotImplemented" then
    TranslateResult.raised WoodchuckError.notImplementedError msg
  else if dbusName = "org.woodchuck.InternalError" then
    TranslateResult.raised WoodchuckError.internalError msg
  else if dbusName = "org.woodchuck.InvalidArgs" then
    TranslateResult.raised WoodchuckError.invalidArgsError msg
  else if dbusName.startsWith ("org.woodchuck.") then
    TranslateResult.raised WoodchuckError.unknownError (dbusName ++ msg)
  else if dbusName = "org.freedesktop.DBus.Error.ServiceUnknown"
          ∨ dbusName = "org.freedesktop.DBus.Error.NoReply" then
    TranslateResult.raised WoodchuckError.woodchuckUnavailableError msg
  else
    TranslateResult.reraised

/-- Which typed error, if any, a translation outcome raises; `Option.none`
means the original fault propagates unchanged. -/
def kindOf : TranslateResult → Option WoodchuckError
  | TranslateResult.raised e _ => some e
  | TranslateResult.reraised => Option.none

/-- The case analysis exactly as the specification states it (claim side, for
comparison with the translator embedded from the source): five exactly
matched names, then any other name under the service prefix, then the two
unavailability fault names, and otherwise the fault propagates unchanged. -/
def claimFaultKind (dbusName : String) : Option WoodchuckError :=
  if dbusName = "org.woodchuck.GenericError" then some WoodchuckError.genericError
  else if dbusName = "org.woodchuck.ObjectExists" then some WoodchuckError.objectExistsError
  else if dbusName = "org.woodchuck.MethodNotImplemented" then
    some WoodchuckError.notImplementedError
  else if dbusName = "org.woodchuck.InternalError" then some WoodchuckError.internalError
  else if dbusName = "org.woodchuck.InvalidArgs" then some WoodchuckError.invalidArgsError
  else if dbusName.startsWith ("org.woodchuck.") then some WoodchuckError.unknownError
  else if dbusName = "org.freedesktop.DBus.Error.ServiceUnknown"
          ∨ dbusName = "org.freedesktop.DBus.Error.NoReply" then
    some WoodchuckError.woodchuckUnavailableError
  else Option.none

/-! ## Resilient proxy (woodchuck.py, `DBusIndirectObject.get_dbus_method`) -/

/-- Result of one invocation attempt of the wrapped DBus method: a value, or
a `dbus.exceptions.DBusException` carrying the fault name (the empty string
when the exception has no `get_dbus_name`). -/
inductive CallOutcome (V : Type)
  | ok (v : V)
  | err (faultName : String)
deriving DecidableEq

/-- What a full call through `get_dbus_method` did: the final outcome (a
returned value or the fault that propagated) and how many times
`bind_object` was invoked to rebind the transport handle. -/
structure CallResult (V : Type) where
  outcome : CallOutcome V
  rebinds : Nat
deriving DecidableEq

def serviceUnknownName : String := "org.freedesktop.DBus.Error.ServiceUnknown"

/-- The wrapper returned by `DBusIndirectObject.get_dbus_method`:
`firstInvoke` is the outcome of the initial `invoke()`, `retryInvoke` the
outcome of the single `invoke()` performed after `bind_object()` when the
first attempt failed with ServiceUnknown.  Any other fault, and any fault of
the retried call, propagates with no further rebind. -/
def getDbusMethodCall {V : Type} (firstInvoke retryInvoke : CallOutcome V) : CallResult V :=
  match firstInvoke with
  | CallOutcome.ok v => ⟨CallOutcome.ok v, 0⟩
  | CallOutcome.err name =>
    if name = serviceUnknownName then ⟨retryInvoke, 1⟩
    else ⟨CallOutcome.err name, 0⟩

/-! ## Property mediator (woodchuck.py, `_BaseObject`) -/

/-- TTL component of a property-table entry: `none` for Python `None`
(never serve from cache, never store), `fin n` for the numeric TTL `n`
(the table uses `_ttl = 1`), `inf` for `float("inf")`. -/
inductive Ttl
  | none
  | fin (seconds : Nat)
  | inf
deriving DecidableEq

/-- The cache-validity test `time.time () - properties[name][1] <
property_map[name][3]` of `__getattribute__`.  In Python 2 `None` compares
below every number, so a `None` TTL is never valid; `float("inf")` exceeds
every elapsed time. -/
def cacheValid (elapsed : Int) : Ttl → Bool
  | Ttl.none => false
  | Ttl.fin t => decide (elapsed < (t : Int))
  | Ttl.inf => true

/-- One alternative version of an object, wire signature `(sxttub)`. -/
structure VersionTuple where
  url : String
  expectedSize : Int
  expectedTransferUp : Nat
  expectedTransferDown : Nat
  utility : Nat
  useSimpleTransferer : Bool
deriving DecidableEq

/-- Python values flowing through the property layer. -/
inductive PyValue
  | str (s : String)
  | int (n : Int)
  | bool (b : Bool)
  | versions (vs : List VersionTuple)
deriving DecidableEq

/-- Best-effort string conversion, `unicode(v)` as used by
`_str_to_dbus_str`.  No claim exercises the rendering of non-string
values. -/
def pyUnicode : PyValue → String
  | PyValue.str s => s
  | PyValue.int n => toString n
  | PyValue.bool b => if b then "True" else "False"
  | PyValue.versions _ => "[...]"

/-- Python truthiness, as applied by `dbus.Boolean`. -/
def pyTruthy : PyValue → Bool
  | PyValue.str s => decide (s ≠ "")
  | PyValue.int n => decide (n ≠ 0)
  | PyValue.bool b => b
  | PyValue.versions vs => decide (vs ≠ [])

/-- `dbus.UInt32` / `dbus.UInt64`: in-range integers pass through, booleans
become 0 or 1, everything else (including out-of-range integers such as a
negative value) raises, modelled as `Option.none`. -/
def coerceUInt (bits : Nat) : PyValue → Option PyValue
  | PyValue.int n => if 0 ≤ n ∧ n < (2 : Int) ^ bits then some (PyValue.int n) else Option.none
  | PyValue.bool b => some (PyValue.int (if b then 1 else 0))
  | _ => Option.none

/-- The coercion functions that appear in the three property tables of
woodchuck.py, named as in the source. -/
inductive Coercion
  | strToDbusStr
  | strToDbusStrStrict
  | dbusUInt32
  | dbusUInt64
  | dbusBoolean
  | dbusVersionsArray
deriving DecidableEq

/-- Apply a table coercion; `Option.none` models the coercion raising.  The
strict string variant differs from the non-strict one only on byte strings
that fail unicode decoding, which are not representable here. -/
def applyCoercion : Coercion → PyValue → Option PyValue
  | Coercion.strToDbusStr, v => some (PyValue.str (pyUnicode v))
  | Coercion.strToDbusStrStrict, v => some (PyValue.str (pyUnicode v))
  | Coercion.dbusUInt32, v => coerceUInt 32 v
  | Coercion.dbusUInt64, v => coerceUInt 64 v
  | Coercion.dbusBoolean, v => some (PyValue.bool (pyTruthy v))
  | Coercion.dbusVersionsArray, v =>
    match v with
    | PyValue.versions vs => some (PyValue.versions vs)
    | _ => Option.none

/-- One entry of a property table: the CamelCase remote name, the coercion,
the default value and the TTL, exactly the four components of each tuple in
the `_*_properties_to_camel_case` dictionaries. -/
structure TableEntry where
  remoteName : String
  coercion : Coercion
  deflt : PyValue
  ttl : Ttl
deriving DecidableEq

/-- The default TTL, `_ttl = 1` in the source. -/
def ttlDefault : Ttl := Ttl.fin 1

/-- `_manager_properties_to_camel_case` from woodchuck.py. -/
def managerPropertiesToCamelCase : List (String × TableEntry) :=
  [("UUID", ⟨"UUID", Coercion.strToDbusStr, PyValue.str "", Ttl.inf⟩),
   ("parent_UUID", ⟨"ParentUUID", Coercion.strToDbusStr, PyValue.str "", Ttl.inf⟩),
   ("human_readable_name",
      ⟨"HumanReadableName", Coercion.strToDbusStr, PyValue.str "", ttlDefault⟩),
   ("cookie", ⟨"Cookie", Coercion.strToDbusStrStrict, PyValue.str "", ttlDefault⟩),
   ("dbus_service_name", ⟨"DBusServiceName", Coercion.strToDbusStr, PyValue.str "", ttlDefault⟩),
   ("dbus_object", ⟨"DBusObject", Coercion.strToDbusStr, PyValue.str "", ttlDefault⟩),
   ("priority", ⟨"Priority", Coercion.dbusUInt32, PyValue.int 0, ttlDefault⟩),
   ("enabled", ⟨"Enabled", Coercion.dbusBoolean, PyValue.bool true, ttlDefault⟩),
   ("registration_time", ⟨"RegistrationTime", Coercion.dbusUInt64, PyValue.int 0, Ttl.inf⟩)]

/-- `_stream_properties_to_camel_case` from woodchuck.py. -/
def streamPropertiesToCamelCase : List (String × TableEntry) :=
  [("UUID", ⟨"UUID", Coercion.strToDbusStr, PyValue.str "", Ttl.inf⟩),
   ("parent_UUID", ⟨"ParentUUID", Coercion.strToDbusStr, PyValue.str "", Ttl.inf⟩),
   ("human_readable_name",
      ⟨"HumanReadableName", Coercion.strToDbusStr, PyValue.str "", ttlDefault⟩),
   ("cookie", ⟨"Cookie", Coercion.strToDbusStrStrict, PyValue.str "", ttlDefault⟩),
   ("priority", ⟨"Priority", Coercion.dbusUInt32, PyValue.int 0, ttlDefault⟩),
   ("freshness", ⟨"Freshness", Coercion.dbusUInt32, PyValue.int 0, ttlDefault⟩),
   ("object_mostly_inline",
      ⟨"ObjectsMostlyInline", Coercion.dbusBoolean, PyValue.bool false, ttlDefault⟩),
   ("registration_time", ⟨"RegistrationTime", Coercion.dbusUInt64, PyValue.int 0, Ttl.inf⟩),
   ("last_update_time", ⟨"LastUpdateTime", Coercion.dbusUInt64, PyValue.int 0, ttlDefault⟩),
   ("last_update_attempt_time",
      ⟨"LastUpdateAttemptTime", Coercion.dbusUInt64, PyValue.int 0, ttlDefault⟩),
   ("last_update_attempt_status",
      ⟨"LastUpdateAttemptStatus", Coercion.dbusUInt32, PyValue.int 0, ttlDefault⟩)]

/-- `_object_properties_to_camel_case` from woodchuck.py. -/
def objectPropertiesToCamelCase : List (String × TableEntry) :=
  [("UUID", ⟨"UUID", Coercion.strToDbusStr, PyValue.str "", Ttl.inf⟩),
   ("parent_UUID", ⟨"ParentUUID", Coercion.strToDbusStr, PyValue.str "", Ttl.inf⟩),
   ("instance", ⟨"Instance", Coercion.dbusUInt32, PyValue.int 0, ttlDefault⟩),
   ("human_readable_name",
      ⟨"HumanReadableName", Coercion.strToDbusStr, PyValue.str "", ttlDefault⟩),
   ("cookie", ⟨"Cookie", Coercion.strToDbusStrStrict, PyValue.str "", ttlDefault⟩),
   ("versions", ⟨"Versions", Coercion.dbusVersionsArray, PyValue.versions [], ttlDefault⟩),
   ("filename", ⟨"Filename", Coercion.strToDbusStr, PyValue.str "", ttlDefault⟩),
   ("wakeup", ⟨"Wakeup", Coercion.dbusBoolean, PyValue.bool true, ttlDefault⟩),
   ("trigger_target", ⟨"TriggerTarget", Coercion.dbusUInt64, PyValue.int 0, ttlDefault⟩),
   ("trigger_earliest", ⟨"TriggerEarliest", Coercion.dbusUInt64, PyValue.int 0, ttlDefault⟩),
   ("trigger_latest", ⟨"TriggerLatest", Coercion.dbusUInt64, PyValue.int 0, ttlDefault⟩),
   ("transfer_frequency", ⟨"TransferFrequency", Coercion.dbusUInt32, PyValue.int 0, ttlDefault⟩),
   ("dont_transfer", ⟨"DontTransfer", Coercion.dbusBoolean, PyValue.bool false, ttlDefault⟩),
   ("need_update", ⟨"NeedUpdate", Coercion.dbusBoolean, PyValue.bool true, ttlDefault⟩),
   ("priority", ⟨"Priority", Coercion.dbusUInt32, PyValue.int 0, ttlDefault⟩),
   ("discovery_time", ⟨"DiscoveryTime", Coercion.dbusUInt64, PyValue.int 0, ttlDefault⟩),
   ("publication_time", ⟨"PublicationTime", Coercion.dbusUInt64, PyValue.int 0, ttlDefault⟩),
   ("registration_time", ⟨"RegistrationTime", Coercion.dbusUInt64, PyValue.int 0, Ttl.inf⟩),
   ("last_transfer_time", ⟨"LastTransferTime", Coercion.dbusUInt64, PyValue.int 0, ttlDefault⟩),
   ("last_transfer_attempt_time",
      ⟨"LastTransferAttemptTime", Coercion.dbusUInt64, PyValue.int 0, ttlDefault⟩),
   ("last_transfer_attempt_status",
      ⟨"LastTransferAttemptStatus", Coercion.dbusUInt32, PyValue.int 0, ttlDefault⟩)]

def managerPropTable : String → Option TableEntry :=
  fun name => managerPropertiesToCamelCase.lookup name

def streamPropTable : String → Option TableEntry :=
  fun name => streamPropertiesToCamelCase.lookup name

def objectPropTable : String → Option TableEntry :=
  fun name => objectPropertiesToCamelCase.lookup name

/-- `self.properties` of a `_BaseObject`: property name to
(cached value, time it was looked up). -/
def PropCache : Type := String → Option (PyValue × Int)

/-- What a property read through `__getattribute__` produced: the returned
value, the cache afterwards, and the number of remote
`org.freedesktop.DBus.Properties.Get` calls issued (0 or 1). -/
structure GetAttrResult where
  value : PyValue
  cache : PropCache
  remoteGets : Nat

/-- The fetch path at the end of `__getattribute__`: issue the remote Get
(`remoteGet` maps the CamelCase remote name to the value the server
returns), then cache the value with the current time unless the TTL is
`None`.  The DBus-exception path of the source re-raises through the fault
translator and leaves the cache untouched; it is not taken here. -/
def fetchAndCache (e : TableEntry) (remoteGet : String → PyValue) (cache : PropCache)
    (tStore : Int) (name : String) : GetAttrResult :=
  let value := remoteGet e.remoteName
  { value := value
    cache := if e.ttl = Ttl.none then cache
             else fun n => if n = name then some (value, tStore) else cache n
    remoteGets := 1 }

/-- `_BaseObject.__getattribute__` restricted to the property branch:
`Option.none` when `name` is not in the property map (the source then falls
through to ordinary attribute access).  `tCheck` is the `time.time ()` of
the cache-validity test and `tStore` the `time.time ()` at which a freshly
fetched value is stamped. -/
def getattributeProp (pm : String → Option TableEntry) (remoteGet : String → PyValue)
    (cache : PropCache) (tCheck tStore : Int) (name : String) : Option GetAttrResult :=
  match pm name with
  | Option.none => Option.none
  | some e =>
    match cache name with
    | some (v, tFetch) =>
      if cacheValid (tCheck - tFetch) e.ttl then some ⟨v, cache, 0⟩
      else some (fetchAndCache e remoteGet cache tStore name)
    | Option.none => some (fetchAndCache e remoteGet cache tStore name)

/-- What a property write through `__setattr__` produced: the cache
afterwards and the remote `org.freedesktop.DBus.Properties.Set` call that
was issued (remote name paired with the coerced value). -/
structure SetAttrResult where
  cache : PropCache
  remoteSet : Option (String × PyValue)

/-- `_BaseObject.__setattr__` restricted to the success path of the property
branch.  The coercion runs while building the Set call arguments; if it
raises (`Option.none`) nothing is sent and the cache is untouched.  On a
successful Set the raw `value` (not the coerced one) is cached with the
current time `tSet`, unless the TTL is `None`.  For a `name` outside the
property map the source performs an ordinary attribute assignment, leaving
the property cache unchanged. -/
def setattrProp (pm : String → Option TableEntry) (cache : PropCache) (tSet : Int)
    (name : String) (value : PyValue) : Option SetAttrResult :=
  match pm name with
  | Option.none => some ⟨cache, Option.none⟩
  | some e =>
    match applyCoercion e.coercion value with
    | Option.none => Option.none
    | some wire =>
      some { cache := if e.ttl = Ttl.none then cache
                      else fun n => if n = name then some (value, tSet) else cache n
             remoteSet := some (e.remoteName, wire) }

/-! ## Identity registries (woodchuck.py, `Object` / `Stream` / `Manager`) -/

/-- One of the module-level identity maps `_objects`, `_streams`,
`_managers`: UUID to the identity of the live proxy instance.  Instance
identities are drawn from a supply of allocation ids; two proxies are
reference-equal exactly when their ids coincide. -/
def Registry : Type := List (String × Nat)

/-- The factory functions `Object(**properties)`, `Stream(**properties)` and
`Manager(**properties)`, which share this shape: if the UUID is a key of the
identity map, return the stored instance; otherwise construct a fresh
instance (`freshId`) and return it.  Nothing in the source ever inserts the
fresh instance into the map: the constructors `_Object.__init__`,
`_Stream.__init__` and `_Manager.__init__` only set up the proxy, the dbus
interface and the property cache. -/
def factoryCall (registry : Registry) (uuid : String) (freshId : Nat) : Nat × Registry :=
  match registry.lookup uuid with
  | some inst => (inst, registry)
  | Option.none => (freshId, registry)

/-- Python `del d[k]`: removes the key, or raises KeyError (`Option.none`)
when the key is absent. -/
def registryDelete (registry : Registry) (uuid : String) : Option Registry :=
  match registry.lookup uuid with
  | some _ => some (registry.eraseP (fun p => p.1 == uuid))
  | Option.none => Option.none

/-! ## Exceptions surfacing from the high-level layer -/

/-- Exceptions that can escape a pywoodchuck operation: a Python `KeyError`,
a Python `AttributeError` (such as from calling a method on `None`), or one
of the typed woodchuck errors. -/
inductive PyExc
  | keyError
  | attributeError
  | wexc (e : WoodchuckError)
deriving DecidableEq

/-! ## Stream unregistration (woodchuck.py `_Stream.unregister` and the
pywoodchuck paths that reach it) -/

/-- Modelled from the spec: the remote `org.woodchuck.stream.Unregister`
method is not part of the Python sources; per the specification it refuses
with the "already exists" (non-empty) error when `only_if_empty` is set and
the stream still contains objects, and otherwise succeeds, returning
True. -/
def llStreamUnregisterRemote (hasObjects onlyIfEmpty : Bool) : Except WoodchuckError Bool :=
  if onlyIfEmpty && hasObjects then Except.error WoodchuckError.objectExistsError
  else Except.ok true

/-- The low-level `_Stream.unregister(only_if_empty)` of woodchuck.py: issue
the remote Unregister with the given flag; on a truthy return, execute
`del _streams[self.UUID]` against the module-level identity map.  The first
component records the flag that was sent on the wire. -/
def llStreamUnregister (llStreams : Registry) (uuid : String) (hasObjects onlyIfEmpty : Bool) :
    Bool × Except PyExc Registry :=
  (onlyIfEmpty,
   match llStreamUnregisterRemote hasObjects onlyIfEmpty with
   | Except.error e => Except.error (PyExc.wexc e)
   | Except.ok ret =>
     if ret then
       match registryDelete llStreams uuid with
       | some r => Except.ok r
       | Option.none => Except.error PyExc.keyError
     else Except.ok llStreams)

/-- The high-level `_Stream.unregister` of pywoodchuck.py: call the
low-level unregister with `only_if_empty=False`, then remove the stream
from the containing dict (`pywoodchuck._streams`, mapping stream cookie to
the `_Stream` wrapper).  On success the result carries the low-level
registry and the containing dict afterwards. -/
def hlStreamUnregister (llStreams : Registry) (uuid : String) (hasObjects : Bool)
    (streamsDict : List (String × Nat)) (cookie : String) :
    Bool × Except PyExc (Registry × List (String × Nat)) :=
  let r := llStreamUnregister llStreams uuid hasObjects false
  (r.1,
   match r.2 with
   | Except.error e => Except.error e
   | Except.ok reg => Except.ok (reg, streamsDict.eraseP (fun p => p.1 == cookie)))

/-- `del pywoodchuck[stream_identifier]` (`PyWoodchuck.__delitem__`): look
the stream up in the stream dict (KeyError when absent, with the remote
lookup fallback not needed for a stream that is present) and call its
`unregister`.  The first component lists the `only_if_empty` flags of the
remote Unregister calls that were issued. -/
def pyDelItemStream (llStreams : Registry) (uuid : String) (hasObjects : Bool)
    (streamsDict : List (String × Nat)) (cookie : String) :
    List Bool × Except PyExc (Registry × List (String × Nat)) :=
  match streamsDict.lookup cookie with
  | Option.none => ([], Except.error PyExc.keyError)
  | some _ =>
    let r := hlStreamUnregister llStreams uuid hasObjects streamsDict cookie
    ([r.1], r.2)

/-- `PyWoodchuck.stream_unregister`: performs the `del`, converting a
KeyError into `woodchuck.NoSuchObject`. -/
def pyStreamUnregisterHL (llStreams : Registry) (uuid : String) (hasObjects : Bool)
    (streamsDict : List (String × Nat)) (cookie : String) :
    List Bool × Except PyExc (Registry × List (String × Nat)) :=
  let r := pyDelItemStream llStreams uuid hasObjects streamsDict cookie
  (r.1,
   match r.2 with
   | Except.error PyExc.keyError => Except.error (PyExc.wexc WoodchuckError.noSuchObject)
   | x => x)

/-! ## Feedback subscriptions (woodchuck.py, `_Manager.feedback_subscribe`
and `_Manager.feedback_unsubscribe`) -/

/-- A remote subscription-related DBus call issued by the manager proxy.
Subscription handles are drawn from a counter so that each remote
FeedbackSubscribe returns a fresh handle. -/
inductive RemoteCall
  | feedbackSubscribe (descendentsToo : Bool) (handle : Nat)
  | feedbackUnsubscribe (handle : Nat)
deriving DecidableEq

/-- The subscription state of a `_Manager`: `feedback_subscriptions[0]`
(self only), `feedback_subscriptions[1]` (descendents too) and
`feedback_subscription_handle`. -/
structure ManagerSubState where
  subsSelf : Nat
  subsDesc : Nat
  handle : Option Nat
deriving DecidableEq

/-- A manager subscription state together with the handle supply and the
remote calls issued so far, in order. -/
structure SubWorld where
  st : ManagerSubState
  nextHandle : Nat
  calls : List RemoteCall
deriving DecidableEq

/-- A manager fresh out of `_Manager.__init__`: counters `[0, 0]`, no
handle, no calls issued. -/
def initialSubWorld : SubWorld := ⟨⟨0, 0, Option.none⟩, 0, []⟩

/-- `_Manager.feedback_subscribe(descendents_too)`.  Returns the index the
source returns (0 or 1) and the new world; `Option.none` models a failed
`assert`.  With an existing handle and a broadening request, a new broad
subscription is obtained before the old one is cancelled; otherwise the
matching counter is incremented; with no handle a first subscription of the
requested scope is obtained. -/
def feedbackSubscribe (w : SubWorld) (descendentsToo : Bool) : Option (Nat × SubWorld) :=
  let idx : Nat := if descendentsToo then 1 else 0
  match w.st.handle with
  | some old =>
    if descendentsToo && decide (w.st.subsDesc = 0) then
      if w.st.subsSelf > 0 then
        let h := w.nextHandle
        some (idx,
          { st := { subsSelf := w.st.subsSelf, subsDesc := w.st.subsDesc + 1, handle := some h }
            nextHandle := w.nextHandle + 1
            calls := w.calls
              ++ [RemoteCall.feedbackSubscribe true h, RemoteCall.feedbackUnsubscribe old] })
      else Option.none
    else
      some (idx,
        { st := if descendentsToo then
                  { subsSelf := w.st.subsSelf, subsDesc := w.st.subsDesc + 1
                    handle := w.st.handle }
                else
                  { subsSelf := w.st.subsSelf + 1, subsDesc := w.st.subsDesc
                    handle := w.st.handle }
          nextHandle := w.nextHandle
          calls := w.calls })
  | Option.none =>
    if decide (w.st.subsSelf = 0) && decide (w.st.subsDesc = 0) then
      let h := w.nextHandle
      some (idx,
        { st := { subsSelf := if descendentsToo then 0 else 1
                  subsDesc := if descendentsToo then 1 else 0
                  handle := some h }
          nextHandle := w.nextHandle + 1
          calls := w.calls ++ [RemoteCall.feedbackSubscribe descendentsToo h] })
    else Option.none

/-- `_Manager.feedback_unsubscribe(handle)`, where `idx` is the 0-or-1 value
`feedback_subscribe` returned.  `Option.none` models a failed `assert`.
When the total count is 1 the remote subscription is cancelled and the
handle cleared; when the last descendents-too count disappears while
self-only counts remain, a narrow subscription replaces the broad one; in
every other case the source returns without modifying any state — in
particular without decrementing the counter. -/
def feedbackUnsubscribe (w : SubWorld) (idx : Nat) : Option SubWorld :=
  if (decide (idx = 0) || decide (idx = 1))
      && decide (0 < (if idx = 0 then w.st.subsSelf else w.st.subsDesc)) then
    if w.st.subsSelf + w.st.subsDesc = 1 then
      match w.st.handle with
      | some old =>
        some { st := { subsSelf := if idx = 0 then w.st.subsSelf - 1 else w.st.subsSelf
                       subsDesc := if idx = 1 then w.st.subsDesc - 1 else w.st.subsDesc
                       handle := Option.none }
               nextHandle := w.nextHandle
               calls := w.calls ++ [RemoteCall.feedbackUnsubscribe old] }
      | Option.none => Option.none
    else if decide (idx = 1) && decide (w.st.subsDesc = 1) && decide (0 < w.st.subsSelf) then
      match w.st.handle with
      | some old =>
        let h := w.nextHandle
        some { st := { subsSelf := w.st.subsSelf, subsDesc := 0, handle := some h }
               nextHandle := w.nextHandle + 1
               calls := w.calls
                 ++ [RemoteCall.feedbackSubscribe false h, RemoteCall.feedbackUnsubscribe old] }
      | Option.none => Option.none
    else
      some w
  else Option.none

/-- The remote subscriptions still active after a sequence of calls: each
FeedbackSubscribe whose handle was never passed to FeedbackUnsubscribe,
with its scope. -/
def activeSubscriptions (calls : List RemoteCall) : List (Bool × Nat) :=
  calls.filterMap (fun c =>
    match c with
    | RemoteCall.feedbackSubscribe d h =>
      if calls.any (fun u => decide (u = RemoteCall.feedbackUnsubscribe h)) then Option.none
      else some (d, h)
    | RemoteCall.feedbackUnsubscribe _ => Option.none)

/-- The call sequence of claim C2: subscribe(self-only) twice, then
unsubscribe(self-only) twice, starting from a fresh manager. -/
def c2Run : Option SubWorld :=
  (feedbackSubscribe initialSubWorld false).bind (fun r1 =>
  (feedbackSubscribe r1.2 false).bind (fun r2 =>
  (feedbackUnsubscribe r2.2 r1.1).bind (fun w3 =>
  feedbackUnsubscribe w3 r2.1)))

/-- The call sequence of claim C8: subscribe(self-only),
subscribe(self+descendants), unsubscribe(self+descendants), starting from a
fresh manager. -/
def c8Run : Option SubWorld :=
  (feedbackSubscribe initialSubWorld false).bind (fun r1 =>
  (feedbackSubscribe r1.2 true).bind (fun r2 =>
  feedbackUnsubscribe r2.2 r2.1))

/-! ## Upcall dispatch (woodchuck.py, `_is_woodchuck` and `Upcalls`) -/

/-- What `_is_woodchuck(name)` does: `name[0]` on the empty string raises
IndexError; a name not beginning with a colon raises ValueError; otherwise
the name is compared against the tracked owner `_woodchuck_owner` (which is
`None` until the owner watch fires, and `None` never equals a string). -/
inductive IsWoodchuckOutcome
  | ok (b : Bool)
  | indexError
  | valueError
deriving DecidableEq

def isWoodchuck (woodchuckOwner : Option String) (name : String) : IsWoodchuckOutcome :=
  match name.data with
  | [] => IsWoodchuckOutcome.indexError
  | c :: _ =>
    if c ≠ ':' then IsWoodchuckOutcome.valueError
    else IsWoodchuckOutcome.ok
      (match woodchuckOwner with
       | some o => decide (name = o)
       | Option.none => false)

/-- Outcome of one inbound upcall through the dispatcher: `nack` means the
method returned False without invoking the application callback hook;
`delivered` means the hook ran and produced `r`; the error constructors
mean the exception escaped the dispatcher. -/
inductive UpcallOutcome (R : Type)
  | nack
  | delivered (r : R)
  | raisedIndexError
  | raisedValueError
deriving DecidableEq

/-- The guard shared verbatim by the four upcall methods `ObjectTransferred`,
`StreamUpdate`, `ObjectTransfer` and `ObjectDeleteFiles`: when
`_is_woodchuck(sender)` is false the method returns False without calling
the hook; when it is true the hook runs. -/
def dispatchUpcall {R : Type} (woodchuckOwner : Option String) (sender : String)
    (cb : Unit → R) : UpcallOutcome R :=
  match isWoodchuck woodchuckOwner sender with
  | IsWoodchuckOutcome.indexError => UpcallOutcome.raisedIndexError
  | IsWoodchuckOutcome.valueError => UpcallOutcome.raisedValueError
  | IsWoodchuckOutcome.ok false => UpcallOutcome.nack
  | IsWoodchuckOutcome.ok true => UpcallOutcome.delivered (cb ())

/-! ## PyWoodchuck construction and operations (pywoodchuck.py) -/

/-- `PyWoodchuck.__init__`: try to register the top-level manager.  A
`WoodchuckUnavailableError` is caught, printed, and leaves
`self.manager = None`.  An `ObjectExistsError` falls back to a cookie
lookup; `cookieMatches` holds the managers found with the cookie whose
`human_readable_name` matches (the source filters on that property), and
anything but exactly one match re-raises `ObjectExistsError`.  Every other
error propagates. -/
def pyWoodchuckInit (registerResult : Except WoodchuckError Nat)
    (cookieMatches : List Nat) : Except WoodchuckError (Option Nat) :=
  match registerResult with
  | Except.ok m => Except.ok (some m)
  | Except.error WoodchuckError.woodchuckUnavailableError => Except.ok Option.none
  | Except.error WoodchuckError.objectExistsError =>
    match cookieMatches with
    | [m] => Except.ok (some m)
    | _ => Except.error WoodchuckError.objectExistsError
  | Except.error e => Except.error e

/-- `PyWoodchuck.available`: `self.manager is not None`. -/
def available (manager : Option Nat) : Bool := manager.isSome

/-- `PyWoodchuck._stream_lookup` without a UUID hint: a stream cached in
`self._streams` is returned directly; otherwise
`self.manager.lookup_stream_by_cookie` runs — on a `None` manager that
attribute access raises AttributeError — and zero or multiple matches raise
`NoSuchObject` and `InternalError` respectively, one match being cached and
returned. -/
def pyStreamLookup (manager : Option Nat) (streamsDict : List (String × Nat))
    (cookie : String) (remoteLookup : Nat → List Nat) :
    Except PyExc (Nat × List (String × Nat)) :=
  match streamsDict.lookup cookie with
  | some s => Except.ok (s, streamsDict)
  | Option.none =>
    match manager with
    | Option.none => Except.error PyExc.attributeError
    | some m =>
      match remoteLookup m with
      | [] => Except.error (PyExc.wexc WoodchuckError.noSuchObject)
      | [u] => Except.ok (u, (cookie, u) :: streamsDict)
      | _ => Except.error (PyExc.wexc WoodchuckError.internalError)

/-- `PyWoodchuck.__getitem__`: the stream lookup with `NoSuchObject`
converted to a Python KeyError. -/
def pyGetItem (manager : Option Nat) (streamsDict : List (String × Nat))
    (cookie : String) (remoteLookup : Nat → List Nat) :
    Except PyExc (Nat × List (String × Nat)) :=
  match pyStreamLookup manager streamsDict cookie remoteLookup with
  | Except.error (PyExc.wexc WoodchuckError.noSuchObject) => Except.error PyExc.keyError
  | x => x

/-- `PyWoodchuck.stream_register`: `self.manager.stream_register(...)` — an
AttributeError on a `None` manager — followed by `return
self[stream_identifier]`. -/
def pyStreamRegister (manager : Option Nat) (streamsDict : List (String × Nat))
    (cookie : String) (remoteRegister : Nat → Except WoodchuckError Nat)
    (remoteLookup : Nat → List Nat) : Except PyExc (Nat × List (String × Nat)) :=
  match manager with
  | Option.none => Except.error PyExc.attributeError
  | some m =>
    match remoteRegister m with
    | Except.error e => Except.error (PyExc.wexc e)
    | Except.ok _ => pyGetItem manager streamsDict cookie remoteLookup

/-- `PyWoodchuck.stream_updated`: `self[stream_identifier].updated(...)`;
the subscript dominates the behaviour on a `None` manager. -/
def pyStreamUpdated (manager : Option Nat) (streamsDict : List (String × Nat))
    (cookie : String) (remoteLookup : Nat → List Nat) : Except PyExc Unit :=
  match pyGetItem manager streamsDict cookie remoteLookup with
  | Except.error e => Except.error e
  | Except.ok _ => Except.ok ()

/-! ## Theorems -/

/-- C1: the identity-map invariant fails in the code.  The factory functions
consult the identity map but never populate it (and no constructor does
either), so the map is invariant under every factory call, and two calls
with the same UUID from the empty map return two distinct fresh instances
instead of one shared, reference-equal proxy. -/
theorem C1_identity_registry_never_populated :
    (∀ (registry : Registry) (uuid : String) (freshId : Nat),
        (factoryCall registry uuid freshId).2 = registry) ∧
    (factoryCall [] ("u") 1).1 = 1 ∧
    (factoryCall (factoryCall [] ("u") 1).2 ("u") 2).1 = 2 ∧
    (1 : Nat) ≠ 2 := by
  refine ⟨?_, by decide, by decide, by decide⟩
  intro registry uuid freshId
  unfold factoryCall
  cases registry.lookup uuid <;> rfl

/-- C2: the sequence subscribe(self), subscribe(self), unsubscribe(self),
unsubscribe(self) from a fresh manager does NOT clear the subscription:
`feedback_unsubscribe` never decrements the counter in the general case, so
the run ends with the self-only counter at 2, the handle still set, no
remote FeedbackUnsubscribe ever issued, and the remote subscription still
active — contrary to the claim (and to the source docstrings). -/
theorem C2_unsubscribe_sequence_leaves_subscription_active :
    c2Run = some ⟨⟨2, 0, some 0⟩, 1, [RemoteCall.feedbackSubscribe false 0]⟩ ∧
    activeSubscriptions [RemoteCall.feedbackSubscribe false 0] = [(false, 0)] := by
  decide

/-- C3: TTL correctness of the property cache.  With a table entry for
`name`: an uncached read fetches remotely once and stamps the store time; a
cached read within a finite TTL is served from the cache with no remote
Get; a cached read at or beyond the TTL fetches remotely again and stores
the fresh value with the current time; a cached read under an infinite TTL
never fetches again.  The UUID, parent_UUID and registration_time entries
of the manager table carry the infinite TTL. -/
theorem C3_ttl_cache_behavior (pm : String → Option TableEntry)
    (remoteGet : String → PyValue) (cache : PropCache) (name : String)
    (e : TableEntry) (tCheck tStore : Int) (hpm : pm name = some e) :
    (cache name = Option.none → e.ttl ≠ Ttl.none →
      ∃ r, getattributeProp pm remoteGet cache tCheck tStore name = some r ∧
        r.remoteGets = 1 ∧ r.value = remoteGet e.remoteName ∧
        r.cache name = some (remoteGet e.remoteName, tStore)) ∧
    (∀ T v tFetch, e.ttl = Ttl.fin T → cache name = some (v, tFetch) →
      tCheck - tFetch < (T : Int) →
      getattributeProp pm remoteGet cache tCheck tStore name = some ⟨v, cache, 0⟩) ∧
    (∀ T v tFetch, e.ttl = Ttl.fin T → cache name = some (v, tFetch) →
      (T : Int) ≤ tCheck - tFetch →
      ∃ r, getattributeProp pm remoteGet cache tCheck tStore name = some r ∧
        r.remoteGets = 1 ∧ r.value = remoteGet e.remoteName ∧
        r.cache name = some (remoteGet e.remoteName, tStore)) ∧
    (∀ v tFetch, e.ttl = Ttl.inf → cache name = some (v, tFetch) →
      getattributeProp pm remoteGet cache tCheck tStore name = some ⟨v, cache, 0⟩) ∧
    (managerPropTable ("UUID")).map TableEntry.ttl = some Ttl.inf ∧
    (managerPropTable ("parent_UUID")).map TableEntry.ttl = some Ttl.inf ∧
    (managerPropTable ("registration_time")).map TableEntry.ttl = some Ttl.inf := by
  refine ⟨?_, ?_, ?_, ?_, by decide, by decide, by decide⟩
  · intro hc httl
    refine ⟨fetchAndCache e remoteGet cache tStore name, ?_, rfl, rfl, ?_⟩
    · unfold getattributeProp
      rw [hpm, hc]
    · unfold fetchAndCache
      simp [httl]
  · intro T v tFetch hT hc hlt
    unfold getattributeProp
    rw [hpm, hc]
    simp [cacheValid, hT, hlt]
  · intro T v tFetch hT hc hge
    refine ⟨fetchAndCache e remoteGet cache tStore name, ?_, rfl, rfl, ?_⟩
    · unfold getattributeProp
      rw [hpm, hc]
      simp [cacheValid, hT, not_lt.mpr hge]
    · unfold fetchAndCache
      rw [hT]
      simp
  · intro v tFetch hT hc
    unfold getattributeProp
    rw [hpm, hc]
    simp [cacheValid, hT]

/-- C3 witness: the `priority` property of the manager table (TTL 1) read
from an empty cache fetches remotely once and caches the result with the
store time. -/
theorem C3_ttl_cache_behavior_witness :
    managerPropTable ("priority")
      = some ⟨"Priority", Coercion.dbusUInt32, PyValue.int 0, ttlDefault⟩ ∧
    ((fun _ => Option.none : PropCache) ("priority")
      = (Option.none : Option (PyValue × Int))) ∧
    (⟨"Priority", Coercion.dbusUInt32, PyValue.int 0, ttlDefault⟩ : TableEntry).ttl
      ≠ Ttl.none ∧
    (∃ r, getattributeProp managerPropTable (fun _ => PyValue.int 7)
        (fun _ => Option.none) 10 10 ("priority") = some r ∧
      r.remoteGets = 1 ∧ r.value = PyValue.int 7 ∧
      r.cache ("priority") = some (PyValue.int 7, 10)) :=
  ⟨rfl, rfl, by decide,
   (C3_ttl_cache_behavior managerPropTable (fun _ => PyValue.int 7)
      (fun _ => Option.none) ("priority")
      ⟨"Priority", Coercion.dbusUInt32, PyValue.int 0, ttlDefault⟩ 10 10 rfl).1
     rfl (by decide)⟩

/-- C4: write-through.  A successful property write sends the coerced value
over the wire and updates the cache with the raw just-written value and the
write time, so an immediately following read within the TTL window (or
under an infinite TTL) returns the just-written value with zero remote Get
calls.  Every entry of the three property tables has a TTL different from
`None`, so the table guard of the source never suppresses the update. -/
theorem C4_write_through (pm : String → Option TableEntry) (remoteGet : String → PyValue)
    (cache : PropCache) (name : String) (e : TableEntry) (value wire : PyValue)
    (tSet tCheck tStore : Int) (hpm : pm name = some e) (httl : e.ttl ≠ Ttl.none)
    (hco : applyCoercion e.coercion value = some wire) :
    (∃ r, setattrProp pm cache tSet name value = some r ∧
      r.remoteSet = some (e.remoteName, wire) ∧
      r.cache name = some (value, tSet) ∧
      (∀ T, e.ttl = Ttl.fin T → tCheck - tSet < (T : Int) →
        getattributeProp pm remoteGet r.cache tCheck tStore name
          = some ⟨value, r.cache, 0⟩) ∧
      (e.ttl = Ttl.inf →
        getattributeProp pm remoteGet r.cache tCheck tStore name
          = some ⟨value, r.cache, 0⟩)) ∧
    (∀ p ∈ managerPropertiesToCamelCase, p.2.ttl ≠ Ttl.none) ∧
    (∀ p ∈ streamPropertiesToCamelCase, p.2.ttl ≠ Ttl.none) ∧
    (∀ p ∈ objectPropertiesToCamelCase, p.2.ttl ≠ Ttl.none) := by
  refine ⟨?_, by decide, by decide, by decide⟩
  refine ⟨⟨fun n => if n = name then some (value, tSet) else cache n,
           some (e.remoteName, wire)⟩, ?_, rfl, by simp, ?_, ?_⟩
  · simp only [setattrProp, hpm, hco]
    simp [httl]
  · intro T hT hlt
    unfold getattributeProp
    rw [hpm]
    simp [cacheValid, hT, hlt]
  · intro hT
    unfold getattributeProp
    rw [hpm]
    simp [cacheValid, hT]

/-- C4 witness: writing `priority := 3` on the manager table at time 5
issues Set("Priority", 3), caches (3, 5), and a read at time 5 is served
from the cache. -/
theorem C4_write_through_witness :
    managerPropTable ("priority")
      = some ⟨"Priority", Coercion.dbusUInt32, PyValue.int 0, ttlDefault⟩ ∧
    (⟨"Priority", Coercion.dbusUInt32, PyValue.int 0, ttlDefault⟩ : TableEntry).ttl
      ≠ Ttl.none ∧
    applyCoercion Coercion.dbusUInt32 (PyValue.int 3) = some (PyValue.int 3) ∧
    (∃ r, setattrProp managerPropTable (fun _ => Option.none) 5 ("priority")
        (PyValue.int 3) = some r ∧
      r.remoteSet = some ("Priority", PyValue.int 3) ∧
      r.cache ("priority") = some (PyValue.int 3, 5) ∧
      (∀ T, (⟨"Priority", Coercion.dbusUInt32, PyValue.int 0, ttlDefault⟩ :
          TableEntry).ttl = Ttl.fin T → (5 : Int) - 5 < (T : Int) →
        getattributeProp managerPropTable (fun _ => PyValue.int 9) r.cache 5 6 ("priority")
          = some ⟨PyValue.int 3, r.cache, 0⟩) ∧
      ((⟨"Priority", Coercion.dbusUInt32, PyValue.int 0, ttlDefault⟩ :
          TableEntry).ttl = Ttl.inf →
        getattributeProp managerPropTable (fun _ => PyValue.int 9) r.cache 5 6 ("priority")
          = some ⟨PyValue.int 3, r.cache, 0⟩)) :=
  ⟨rfl, by decide, by decide,
   (C4_write_through managerPropTable (fun _ => PyValue.int 9) (fun _ => Option.none)
      ("priority") ⟨"Priority", Coercion.dbusUInt32, PyValue.int 0, ttlDefault⟩
      (PyValue.int 3) (PyValue.int 3) 5 5 6 rfl (by decide) (by decide)).1⟩

/-- C5: the fault translator implements exactly the claimed case analysis:
for every fault name and message, the typed error it raises (or the absence
of one, meaning the original fault is re-raised unchanged) agrees with the
claim-side case analysis `claimFaultKind` on the name. -/
theorem C5_fault_translation_cases (dbusName msg : String) :
    kindOf (dbusExceptionToWoodchuckException dbusName msg) = claimFaultKind dbusName := by
  unfold dbusExceptionToWoodchuckException claimFaultKind
  split_ifs <;> rfl

/-- C6: a call through `get_dbus_method` rebinds at most once: a successful
first invoke returns with no rebind; a first invoke failing with
ServiceUnknown triggers exactly one rebind, after which the outcome of the
single retry — success or any fault — is final; a first invoke failing with
any other fault propagates immediately without rebinding. -/
theorem C6_rebind_and_retry_once {V : Type} (firstInvoke retryInvoke : CallOutcome V) :
    (getDbusMethodCall firstInvoke retryInvoke).rebinds ≤ 1 ∧
    (∀ v, firstInvoke = CallOutcome.ok v →
        getDbusMethodCall firstInvoke retryInvoke = ⟨CallOutcome.ok v, 0⟩) ∧
    (firstInvoke = CallOutcome.err serviceUnknownName →
        getDbusMethodCall firstInvoke retryInvoke = ⟨retryInvoke, 1⟩) ∧
    (∀ nm, firstInvoke = CallOutcome.err nm → nm ≠ serviceUnknownName →
        getDbusMethodCall firstInvoke retryInvoke = ⟨CallOutcome.err nm, 0⟩) := by
  refine ⟨?_, ?_, ?_, ?_⟩
  · cases firstInvoke with
    | ok v => simp [getDbusMethodCall]
    | err name =>
      by_cases hn : name = serviceUnknownName
      · simp [getDbusMethodCall, hn]
      · simp [getDbusMethodCall, hn]
  · intro v h
    subst h
    rfl
  · intro h
    subst h
    simp [getDbusMethodCall]
  · intro nm h hne
    subst h
    simp [getDbusMethodCall, hne]

/-- C6 witness: a first call failing with ServiceUnknown and a retry that
fails with ServiceUnknown again ends with that fault and exactly one
rebind. -/
theorem C6_rebind_and_retry_once_witness :
    (CallOutcome.err serviceUnknownName : CallOutcome Nat)
      = CallOutcome.err serviceUnknownName ∧
    getDbusMethodCall (CallOutcome.err serviceUnknownName : CallOutcome Nat)
        (CallOutcome.err serviceUnknownName)
      = ⟨CallOutcome.err serviceUnknownName, 1⟩ :=
  ⟨rfl, (C6_rebind_and_retry_once (CallOutcome.err serviceUnknownName)
      (CallOutcome.err serviceUnknownName)).2.2.1 rfl⟩

/-- C7 counterexample: the claim promises a negative acknowledgement with no
exception for EVERY sender string that differs from the tracked owner, but
a sender that is not a private bus name — here "org.evil" against owner
":1.42" — makes `_is_woodchuck` raise ValueError instead of the dispatcher
returning False. -/
theorem C7_spoofed_nonprivate_sender_raises :
    dispatchUpcall (some (":1.42")) ("org.evil") (fun _ => (0 : Nat))
      = UpcallOutcome.raisedValueError ∧
    dispatchUpcall (some (":1.42")) ("org.evil") (fun _ => (0 : Nat))
      ≠ UpcallOutcome.nack := by
  refine ⟨rfl, by decide⟩

/-- C7 amended: for every sender that is a private bus name (a nonempty
string beginning with a colon) and differs from the tracked owner, each
upcall method returns False without invoking the application callback and
without raising; a nonempty sender not beginning with a colon raises
ValueError, and the empty sender raises IndexError. -/
theorem C7_sender_auth_on_private_names {R : Type} (woodchuckOwner : Option String)
    (sender : String) (cb : Unit → R) :
    ((∃ rest, sender.data = ':' :: rest) → woodchuckOwner ≠ some sender →
        dispatchUpcall woodchuckOwner sender cb = UpcallOutcome.nack) ∧
    (∀ c rest, sender.data = c :: rest → c ≠ ':' →
        dispatchUpcall woodchuckOwner sender cb = UpcallOutcome.raisedValueError) ∧
    (sender.data = [] →
        dispatchUpcall woodchuckOwner sender cb = UpcallOutcome.raisedIndexError) := by
  refine ⟨?_, ?_, ?_⟩
  · rintro ⟨rest, hdata⟩ hne
    cases woodchuckOwner with
    | none =>
      unfold dispatchUpcall isWoodchuck
      rw [hdata]
      simp
    | some o =>
      have hso : sender ≠ o := fun h => hne (by rw [h])
      unfold dispatchUpcall isWoodchuck
      rw [hdata]
      simp [hso]
  · intro c rest hdata hc
    unfold dispatchUpcall isWoodchuck
    rw [hdata]
    simp [hc]
  · intro hdata
    unfold dispatchUpcall isWoodchuck
    rw [hdata]

/-- C7 amended witness: a genuinely different private-name sender ":1.1"
against owner ":9.9" is negatively acknowledged without a callback or an
exception. -/
theorem C7_sender_auth_on_private_names_witness :
    (∃ rest, (":1.1").data = ':' :: rest) ∧
    (some (":9.9") : Option String) ≠ some (":1.1") ∧
    dispatchUpcall (some (":9.9")) (":1.1") (fun _ => (0 : Nat)) = UpcallOutcome.nack :=
  ⟨⟨['1', '.', '1'], rfl⟩, by decide,
   (C7_sender_auth_on_private_names (some (":9.9")) (":1.1") (fun _ => (0 : Nat))).1
     ⟨['1', '.', '1'], rfl⟩ (by decide)⟩

/-- C8: subscribe(self), subscribe(self+descendants),
unsubscribe(self+descendants) from a fresh manager ends with self-only
count 1, descendants count 0, and a replaced handle: the run requested a
new narrow-scope FeedbackSubscribe (handle 2) and cancelled the broad
handle 1, so exactly one remote subscription is active and it is scoped to
self-only. -/
theorem C8_downgrade_sequence :
    c8Run = some ⟨⟨1, 0, some 2⟩, 3,
      [RemoteCall.feedbackSubscribe false 0, RemoteCall.feedbackSubscribe true 1,
       RemoteCall.feedbackUnsubscribe 0, RemoteCall.feedbackSubscribe false 2,
       RemoteCall.feedbackUnsubscribe 1]⟩ ∧
    activeSubscriptions
      [RemoteCall.feedbackSubscribe false 0, RemoteCall.feedbackSubscribe true 1,
       RemoteCall.feedbackUnsubscribe 0, RemoteCall.feedbackSubscribe false 2,
       RemoteCall.feedbackUnsubscribe 1] = [(false, 2)] := by
  decide

/-- C9: with the service absent, construction leaves `manager = None` and
`available()` returns False without raising, as claimed; but every other
operation — stream_register, the stream subscript lookup, stream_updated —
then raises a Python AttributeError from the `None` manager, not the
claimed (and docstring-promised) `WoodchuckUnavailableError`. -/
theorem C9_unavailable_operations_raise_attribute_error :
    pyWoodchuckInit (Except.error WoodchuckError.woodchuckUnavailableError) []
      = Except.ok Option.none ∧
    available Option.none = false ∧
    pyStreamRegister Option.none [] ("s") (fun _ => Except.ok 0) (fun _ => [0])
      = Except.error PyExc.attributeError ∧
    pyGetItem Option.none [] ("s") (fun _ => [0]) = Except.error PyExc.attributeError ∧
    pyStreamUpdated Option.none [] ("s") (fun _ => [0])
      = Except.error PyExc.attributeError ∧
    PyExc.attributeError ≠ PyExc.wexc WoodchuckError.woodchuckUnavailableError :=
  ⟨rfl, rfl, rfl, rfl, rfl, by decide⟩

/-- C10: every high-level stream removal does pass `only_if_empty=False`
(the flag recorded is `false` even for a stream that still contains
objects, and the remote Unregister succeeds), but the subsequent
`del _streams[UUID]` against the never-populated identity registry raises
KeyError, so the entry is not removed from the local stream dict and the
direct path surfaces KeyError while `stream_unregister` surfaces
NoSuchObject — contrary to the claimed clean removal. -/
theorem C10_unregister_paths_flag_false_but_keyerror :
    llStreamUnregisterRemote true false = Except.ok true ∧
    llStreamUnregister [] ("u1") true false = (false, Except.error PyExc.keyError) ∧
    hlStreamUnregister [] ("u1") true [("s", 7)] ("s")
      = (false, Except.error PyExc.keyError) ∧
    pyDelItemStream [] ("u1") true [("s", 7)] ("s")
      = ([false], Except.error PyExc.keyError) ∧
    pyStreamUnregisterHL [] ("u1") true [("s", 7)] ("s")
      = ([false], Except.error (PyExc.wexc WoodchuckError.noSuchObject)) :=
  ⟨rfl, rfl, rfl, rfl, rfl⟩

end Woodchuck
